import Mathlib

/-!
Verification of the lifecycle-synchronization core of
`packages/react-meteor-data/useTracker.js`.

The hook is embedded as an explicit state machine.  The per-instance
mutable record `refs` becomes the `Refs` structure; the observable side
effects (re-render requests via `forceUpdate`, computation `stop` calls,
cleanup-handler invocations, reactive-function runs, computation
creations, computation-handler invocations) are counted in a `Log`.
The host runtime and the reactive engine are modelled as the event
sources that re-enter the core: a render pass (whose `useMemo` gate
re-runs the memo callback exactly when the dependency list's identity
changed), the first commit (running the `useEffect` callback once),
invalidation pulses (invoking the `tracked` callback with
`firstRun = false`), leak-guard timer expiries, and unmount (running the
disposer returned from `useEffect`, provided the effect ever ran).

Source values are modelled as `Nat`; the reactive function receives the
computation handle (or `none` for the server path) and the current value
of the reactive source, mirroring `reactiveFn(c)` reading reactive data.
-/

namespace UseTracker

/-- The dependency argument as JavaScript sees it: `undefined`, `null`,
a non-array value, or a proper array of identity-comparison keys
(keys are modelled as `Nat`). -/
inductive Deps where
  | undef : Deps
  | null : Deps
  | nonArray : Deps
  | arr : List Nat → Deps
deriving DecidableEq, Repr

/-- `Array.isArray(deps)`. -/
def Deps.isArray : Deps → Bool
  | .arr _ => true
  | _ => false

/-- The source tests `deps === null || deps === undefined || !Array.isArray(deps)`
(the first two disjuncts are stated in the source as optimizations);
semantically this is just the negation of `Array.isArray`. -/
def Deps.notProperArray (d : Deps) : Bool :=
  d == Deps.null || d == Deps.undef || !d.isArray

/-- The per-instance mutable record held in `useRef` (`refs`), with the
slots the source reads and writes: `isMounted` (tri-state
`null`/`false`/`true`, modelled as `Option Bool`), `doDeferredRender`,
`computationCleanup` (whether the cleanup slot is occupied),
`computation` (the live computation handle's id, if any), `disposeId`
(the stored leak-guard timer handle, if any) and `trackerData`
(the cached result; `none` before the first run). -/
@[ext]
structure Refs where
  isMounted : Option Bool
  doDeferredRender : Bool
  computationCleanup : Bool
  computation : Option Nat
  disposeId : Option Nat
  trackerData : Option Nat
deriving DecidableEq, Repr

/-- Counters for the externally observable effects of the core. -/
@[ext]
structure Log where
  forceUpdates : Nat
  stops : Nat
  cleanups : Nat
  runs : Nat
  creations : Nat
  handlerCalls : Nat
deriving DecidableEq, Repr

/-- A scheduled leak-guard timer: its `setTimeout` handle and its delay. -/
@[ext]
structure TimerEntry where
  id : Nat
  delay : Nat
deriving DecidableEq, Repr

/-- The whole machine state: the instance's `refs`, the effect log, the
pending (scheduled, not yet fired or cleared) timers, fresh-id counters
for timer handles and computation handles, the current value of the
reactive source, whether the `useEffect` callback has run (its cleanup
runs at unmount only in that case), the dependency list stored by the
`useMemo` gate from the previous render, and the dependency argument of
the most recent render pass (the one the committed effect closes over). -/
@[ext]
structure State where
  refs : Refs
  log : Log
  timers : List TimerEntry
  nextTimerId : Nat
  nextCompId : Nat
  source : Nat
  effectRan : Bool
  prevDeps : Option Deps
  lastDeps : Deps
deriving DecidableEq, Repr

/-- The configuration of one hook call site: the reactive function
(receiving the computation handle or `null`, and reading the reactive
source), whether a `computationHandler` was supplied, whether that
handler returns a cleanup function, and `Meteor.isServer`. -/
structure Config where
  reactiveFn : Option Nat → Nat → Nat
  hasHandler : Bool
  handlerReturnsCleanup : Bool
  isServer : Bool

/-- The state of a freshly created component instance (`useRef` initial
value, counters zero, no pending timers), with reactive source `src`. -/
def initState (src : Nat) : State :=
  { refs := { isMounted := none, doDeferredRender := false,
              computationCleanup := false, computation := none,
              disposeId := none, trackerData := none }
    log := { forceUpdates := 0, stops := 0, cleanups := 0, runs := 0,
             creations := 0, handlerCalls := 0 }
    timers := []
    nextTimerId := 0
    nextCompId := 0
    source := src
    effectRan := false
    prevDeps := none
    lastDeps := Deps.undef }

/-- The `forceUpdate` dispatcher obtained from `useReducer`: requests a
re-render. -/
def forceUpdate (s : State) : State :=
  { s with log.forceUpdates := s.log.forceUpdates + 1 }

/-- `dispose` (source lines 42-51): if the cleanup slot is occupied,
invoke the cleanup and clear the slot; if a computation handle is
present, stop it and clear the slot. -/
def dispose (s : State) : State :=
  let s :=
    if s.refs.computationCleanup then
      { s with refs.computationCleanup := false,
               log.cleanups := s.log.cleanups + 1 }
    else s
  if s.refs.computation.isSome then
    { s with refs.computation := none, log.stops := s.log.stops + 1 }
  else s

/-- `runReactiveFn` (source lines 53-57): call `reactiveFn(c)` and store
the result in `refs.trackerData`. -/
def runReactiveFn (cfg : Config) (c : Option Nat) (s : State) : State :=
  { s with refs.trackerData := some (cfg.reactiveFn c s.source),
           log.runs := s.log.runs + 1 }

/-- The `computationHandler` invocation at the top of the first-run
branch of `tracked`: call the handler and, if it returned a cleanup,
store it in `refs.computationCleanup`. -/
def applyHandler (cfg : Config) (s : State) : State :=
  if cfg.hasHandler then
    let s := { s with log.handlerCalls := s.log.handlerCalls + 1 }
    if cfg.handlerReturnsCleanup then
      { s with refs.computationCleanup := true }
    else s
  else s

/-- `tracked` (source lines 59-99), the callback run by the reactive
engine.  `deps` is the dependency argument the closure captured at the
render pass that created it; `c` is the computation handle (or `none`
when called as `tracked(null)` on the server); `firstRun` is
`c.firstRun`. -/
def tracked (cfg : Config) (deps : Deps) (c : Option Nat) (firstRun : Bool)
    (s : State) : State :=
  if c.isNone || firstRun then
    let s := applyHandler cfg s
    if s.refs.isMounted = some false then s
    else
      let s :=
        if s.refs.isMounted = none then
          { s with refs.isMounted := some false }
        else s
      runReactiveFn cfg c s
  else
    if deps.notProperArray then
      forceUpdate (dispose s)
    else if s.refs.isMounted = some true then
      forceUpdate (runReactiveFn cfg c s)
    else
      { s with refs.doDeferredRender := true }

/-- `Tracker.nonreactive(() => Tracker.autorun(tracked))`: allocate a
fresh computation handle and run `tracked` synchronously with
`firstRun = true`, returning the handle for the caller to store. -/
def autorun (cfg : Config) (deps : Deps) (s : State) : State × Nat :=
  let cid := s.nextCompId
  let s := { s with nextCompId := cid + 1,
                    log.creations := s.log.creations + 1 }
  (tracked cfg deps (some cid) true s, cid)

/-- The leak-guard delay passed to `setTimeout` (source line 128). -/
def leakGuardDelay : Nat := 50

/-- The `useMemo` callback (source lines 102-131): dispose the old
computation; on the server, run `tracked(null)` with no real
computation; otherwise create a fresh computation (whose first run
happens synchronously inside `Tracker.autorun`, before the handle is
assigned to `refs.computation`), and, if the instance has not completed
its first mount, schedule a leak-guard timer and store its handle in
`refs.disposeId` (overwriting any previously stored handle without
cancelling that earlier timer). -/
def memoCallback (cfg : Config) (deps : Deps) (s : State) : State :=
  let s := dispose s
  if cfg.isServer then
    let s := { s with refs.computation := none }
    tracked cfg deps none false s
  else
    let p := autorun cfg deps s
    let s := { p.1 with refs.computation := some p.2 }
    if s.refs.isMounted ≠ some true then
      let tid := s.nextTimerId
      { s with refs.disposeId := some tid,
               timers := s.timers ++ [⟨tid, leakGuardDelay⟩],
               nextTimerId := tid + 1 }
    else s

/-- `clearTimeout` on a stored handle: remove the timer with that id
from the pending set, if it is still pending; a no-op otherwise. -/
def clearPending (tid : Option Nat) (s : State) : State :=
  match tid with
  | some t => { s with timers := s.timers.filter (fun e => e.id != t) }
  | none => s

/-- The `useEffect` callback (source lines 133-160), run once at the
first commit: set `isMounted`, and, off the server, cancel the stored
leak-guard timer and clear its slot; if no computation handle exists,
recreate one exactly as the memo gate would (via `autorun`) provided
`deps` is a proper array, and mark a deferred render pending; finally,
if a deferred render is pending, recompute from the current handle,
request a re-render, and clear the flag. -/
def effectCallback (cfg : Config) (deps : Deps) (s : State) : State :=
  let s := { s with refs.isMounted := some true }
  if cfg.isServer then s
  else
    let s := clearPending s.refs.disposeId s
    let s := { s with refs.disposeId := none }
    let s :=
      if s.refs.computation = none then
        let s :=
          if deps.isArray then
            let p := autorun cfg deps s
            { p.1 with refs.computation := some p.2 }
          else s
        { s with refs.doDeferredRender := true }
      else s
    if s.refs.doDeferredRender then
      let s := forceUpdate (runReactiveFn cfg s.refs.computation s)
      { s with refs.doDeferredRender := false }
    else s

/-- The host runtime's memoization comparison for `useMemo` dependency
lists (React's production `areHookInputsEqual`): element-wise identity
comparison, stopping at the shorter list. -/
def areHookInputsEqual : List Nat → List Nat → Bool
  | [], _ => true
  | _ :: _, [] => true
  | a :: as, b :: bs => a == b && areHookInputsEqual as bs

/-- Whether the `useMemo` gate re-runs its callback this render: it does
unless both the previous and the current dependency argument are proper
arrays whose keys compare equal. -/
def depsChanged (prev : Option Deps) (next : Deps) : Bool :=
  match prev, next with
  | some (Deps.arr p), Deps.arr n => !areHookInputsEqual n p
  | _, _ => true

/-- One render pass of the hook: record the dependency argument this
render closes over, and run the `useMemo` callback exactly when the
dependency identity changed (always on the first render).  The value
the hook returns is `refs.trackerData` of the resulting state
(source line 162). -/
def render (cfg : Config) (deps : Deps) (s : State) : State :=
  let s := { s with lastDeps := deps }
  if depsChanged s.prevDeps deps then
    memoCallback cfg deps { s with prevDeps := some deps }
  else s

/-- The events that re-enter the core: a render pass with a dependency
argument; the commit (flushing the `useEffect` callback, once); an
invalidation pulse from the reactive engine, carrying the deps the
fired closure captured, the handle it passes, its `firstRun` flag, and
the new value of the reactive source; the expiry of a scheduled timer;
and unmount (running the effect's cleanup, `dispose`, provided the
effect ever ran). -/
inductive Event where
  | render : Deps → Event
  | commit : Event
  | pulse : Deps → Option Nat → Bool → Nat → Event
  | timerFire : Nat → Event
  | unmount : Event
deriving DecidableEq, Repr

/-- Whether an event is a render pass or the commit (the two events a
component abandoned before commit never receives again). -/
def Event.isRenderOrCommit : Event → Bool
  | .render _ => true
  | .commit => true
  | _ => false

/-- The transition function of the machine. -/
def step (cfg : Config) (s : State) : Event → State
  | .render deps => render cfg deps s
  | .commit =>
      if s.effectRan then s
      else { effectCallback cfg s.lastDeps s with effectRan := true }
  | .pulse deps c firstRun newSource =>
      tracked cfg deps c firstRun { s with source := newSource }
  | .timerFire tid =>
      if s.timers.any (fun e => e.id == tid) then
        let s := { s with timers := s.timers.filter (fun e => e.id != tid) }
        if s.refs.isMounted ≠ some true then dispose s else s
      else s
  | .unmount => if s.effectRan then dispose s else s

/-- Run a trace of events. -/
def run (cfg : Config) (s : State) (es : List Event) : State :=
  es.foldl (step cfg) s

/-! ### Exception-aware embedding

The source wraps none of `reactiveFn`, `computationHandler`, the stored
cleanup callback, or `computation.stop()` in a `try`/`catch`.  To reason
about exception propagation, the slots of `refs` read by `dispose`,
`runReactiveFn` and the first-run branch of `tracked` are re-embedded
with the callbacks as genuine fallible functions in the `Except` monad:
a thrown JavaScript exception is `Except.error`. -/

/-- The slots of `refs` used by the fallible embedding, with the cleanup
slot holding the actual (possibly throwing) callback. -/
structure ERefs where
  isMounted : Option Bool
  computationCleanup : Option (Unit → Except String Unit)
  computation : Option Nat
  trackerData : Option Nat
  stops : Nat
  cleanups : Nat

/-- `runReactiveFn` with a fallible `reactiveFn`: no local handler, so
an error short-circuits before `refs.trackerData` is written. -/
def runReactiveFnE (reactiveFn : Option Nat → Except String Nat)
    (c : Option Nat) (r : ERefs) : Except String ERefs := do
  let data ← reactiveFn c
  pure { r with trackerData := some data }

/-- `dispose` with a fallible cleanup callback: the cleanup is invoked
before the computation is stopped, and no local handler separates the
two, so an error in the cleanup short-circuits past the `stop` call. -/
def disposeE (r : ERefs) : Except String ERefs := do
  let r ← match r.computationCleanup with
    | some cleanup => do
        cleanup ()
        pure { r with computationCleanup := none,
                      cleanups := r.cleanups + 1 }
    | none => pure r
  match r.computation with
  | some _ => pure { r with computation := none, stops := r.stops + 1 }
  | none => pure r

/-- The first-run branch of `tracked` with fallible `computationHandler`
and `reactiveFn`: no local handler around either call. -/
def trackedFirstRunE (reactiveFn : Option Nat → Except String Nat)
    (handler :
      Option (Option Nat → Except String (Option (Unit → Except String Unit))))
    (c : Option Nat) (r : ERefs) : Except String ERefs := do
  let r ← match handler with
    | some h => do
        let cleanup ← h c
        match cleanup with
        | some f => pure { r with computationCleanup := some f }
        | none => pure r
    | none => pure r
  if r.isMounted = some false then
    pure r
  else
    let r :=
      if r.isMounted = none then { r with isMounted := some false } else r
    runReactiveFnE reactiveFn c r

/-! ### Concrete instances used as witnesses -/

/-- `reactiveFn = () => 42`, no `computationHandler`, client side. -/
def cfg42 : Config :=
  { reactiveFn := fun _ _ => 42, hasHandler := false,
    handlerReturnsCleanup := false, isServer := false }

/-- A reactive function returning the current source value, with a
`computationHandler` that returns a cleanup, client side. -/
def cfgLive : Config :=
  { reactiveFn := fun _ src => src, hasHandler := true,
    handlerReturnsCleanup := true, isServer := false }

/-- A state whose cleanup slot and computation slot are both occupied. -/
def sBusy : State :=
  { initState 0 with refs.computationCleanup := true,
                     refs.computation := some 0 }

/-- A throwing cleanup callback. -/
def cleanupBoom : Unit → Except String Unit :=
  fun _ => Except.error "cleanup failed"

/-- A throwing reactive function. -/
def fnBoom : Option Nat → Except String Nat :=
  fun _ => Except.error "reactive failed"

/-- A throwing computation handler. -/
def handlerBoom :
    Option Nat → Except String (Option (Unit → Except String Unit)) :=
  fun _ => Except.error "handler failed"

/-- Fallible-embedding slots holding a throwing cleanup and a live
computation, before the first mount completed. -/
def rBusy : ERefs :=
  { isMounted := none, computationCleanup := some cleanupBoom,
    computation := some 0, trackerData := none, stops := 0, cleanups := 0 }

/-! ### Closed forms and branch lemmas -/

/-- `notProperArray` is exactly the negation of `Array.isArray`. -/
lemma Deps.notProperArray_eq (d : Deps) : d.notProperArray = !d.isArray := by
  cases d <;> rfl

/-- Closed form of `dispose`. -/
lemma dispose_eq (s : State) :
    dispose s =
      { s with refs.computationCleanup := false,
               refs.computation := none,
               log.cleanups :=
                 s.log.cleanups + (if s.refs.computationCleanup then 1 else 0),
               log.stops :=
                 s.log.stops + (if s.refs.computation.isSome then 1 else 0) } := by
  unfold dispose
  cases h1 : s.refs.computationCleanup <;> cases h2 : s.refs.computation <;>
    (ext : 2) <;> simp [h1, h2]

/-- Closed form of `applyHandler`. -/
lemma applyHandler_eq (cfg : Config) (s : State) :
    applyHandler cfg s =
      { s with refs.computationCleanup :=
                 (cfg.hasHandler && cfg.handlerReturnsCleanup)
                   || s.refs.computationCleanup,
               log.handlerCalls :=
                 s.log.handlerCalls + (if cfg.hasHandler then 1 else 0) } := by
  unfold applyHandler
  cases h1 : cfg.hasHandler <;> cases h2 : cfg.handlerReturnsCleanup <;>
    (ext : 2) <;> simp [h1, h2]

/-- First-run branch of `tracked` when `isMounted` is still `null`:
invoke the handler, mark `isMounted = false`, and compute synchronously. -/
lemma tracked_first_none (cfg : Config) (d : Deps) (c : Option Nat) (s : State)
    (hm : s.refs.isMounted = none) :
    tracked cfg d c true s =
      runReactiveFn cfg c
        { applyHandler cfg s with refs.isMounted := some false } := by
  unfold tracked
  simp [applyHandler_eq, hm]

/-- First-run branch of `tracked` when `isMounted` is explicitly `false`
(a fresh computation created on a pre-commit re-render): the handler is
invoked but the reactive function is not re-run. -/
lemma tracked_first_false (cfg : Config) (d : Deps) (c : Option Nat) (s : State)
    (hm : s.refs.isMounted = some false) :
    tracked cfg d c true s = applyHandler cfg s := by
  unfold tracked
  simp [applyHandler_eq, hm]

/-- First-run branch of `tracked` when the instance is already mounted
(the mount-reconciler recovery path): handler, then synchronous run. -/
lemma tracked_first_true (cfg : Config) (d : Deps) (c : Option Nat) (s : State)
    (hm : s.refs.isMounted = some true) :
    tracked cfg d c true s = runReactiveFn cfg c (applyHandler cfg s) := by
  unfold tracked
  simp [applyHandler_eq, hm]

/-- Subsequent run with deps that are not a proper array: dispose and
request a re-render, without recomputing. -/
lemma tracked_sub_notArray (cfg : Config) (d : Deps) (k : Nat) (s : State)
    (hd : d.isArray = false) :
    tracked cfg d (some k) false s = forceUpdate (dispose s) := by
  unfold tracked
  simp [Deps.notProperArray_eq, hd]

/-- Subsequent run with array deps while mounted: recompute and request
a re-render. -/
lemma tracked_sub_mounted (cfg : Config) (d : Deps) (k : Nat) (s : State)
    (hd : d.isArray = true) (hm : s.refs.isMounted = some true) :
    tracked cfg d (some k) false s =
      forceUpdate (runReactiveFn cfg (some k) s) := by
  unfold tracked
  simp [Deps.notProperArray_eq, hd, hm]

/-- Subsequent run with array deps while not mounted: only set the
deferred-render flag. -/
lemma tracked_sub_deferred (cfg : Config) (d : Deps) (k : Nat) (s : State)
    (hd : d.isArray = true) (hm : s.refs.isMounted ≠ some true) :
    tracked cfg d (some k) false s =
      { s with refs.doDeferredRender := true } := by
  unfold tracked
  simp [Deps.notProperArray_eq, hd, hm]

/-- `tracked` never schedules or cancels timers, never allocates timer
handles, never creates computations, never stores a timer handle, never
moves `isMounted` to `true`, and never resurrects a cleared computation
slot. -/
lemma tracked_frame (cfg : Config) (d : Deps) (c : Option Nat) (f : Bool)
    (s : State) :
    (tracked cfg d c f s).timers = s.timers ∧
    (tracked cfg d c f s).nextTimerId = s.nextTimerId ∧
    (tracked cfg d c f s).log.creations = s.log.creations ∧
    (tracked cfg d c f s).refs.disposeId = s.refs.disposeId ∧
    ((tracked cfg d c f s).refs.isMounted = some true →
      s.refs.isMounted = some true) ∧
    (s.refs.computation = none →
      (tracked cfg d c f s).refs.computation = none) := by
  unfold tracked
  split
  · simp only [applyHandler_eq]
    split
    · simp
    · split <;> simp [runReactiveFn]
  · split
    · simp [forceUpdate, dispose_eq]
    · split <;> simp [forceUpdate, runReactiveFn]

/-- The explicit state after the very first render of a fresh instance
(client side): the computation is created and its first run has cached
the reactive value synchronously, `isMounted` is `false`, a leak-guard
timer with delay 50 is pending, and no re-render has been requested. -/
lemma render_init (cfg : Config) (deps : Deps) (src : Nat)
    (hs : cfg.isServer = false) :
    render cfg deps (initState src) =
      { refs := { isMounted := some false, doDeferredRender := false,
                  computationCleanup :=
                    cfg.hasHandler && cfg.handlerReturnsCleanup,
                  computation := some 0, disposeId := some 0,
                  trackerData := some (cfg.reactiveFn (some 0) src) }
        log := { forceUpdates := 0, stops := 0, cleanups := 0, runs := 1,
                 creations := 1,
                 handlerCalls := if cfg.hasHandler then 1 else 0 }
        timers := [⟨0, leakGuardDelay⟩]
        nextTimerId := 1
        nextCompId := 1
        source := src
        effectRan := false
        prevDeps := some deps
        lastDeps := deps } := by
  have hd : depsChanged none deps = true := by cases deps <;> rfl
  cases h1 : cfg.hasHandler <;> cases h2 : cfg.handlerReturnsCleanup <;>
    simp [render, memoCallback, autorun, tracked, applyHandler, runReactiveFn,
          dispose_eq, initState, hd, hs, h1, h2]

/-- Whenever the `useMemo` callback runs on the client before the
instance has completed its first mount, it schedules a leak-guard timer
with delay `leakGuardDelay` and stores its handle, allocating a fresh
timer id; the previously pending timers are left untouched. -/
lemma memoCallback_schedules (cfg : Config) (deps : Deps) (s : State)
    (hs : cfg.isServer = false) (hm : s.refs.isMounted ≠ some true) :
    (memoCallback cfg deps s).timers
      = s.timers ++ [⟨s.nextTimerId, leakGuardDelay⟩] ∧
    (memoCallback cfg deps s).refs.disposeId = some s.nextTimerId ∧
    (memoCallback cfg deps s).nextTimerId = s.nextTimerId + 1 := by
  unfold memoCallback autorun
  rcases hmm : s.refs.isMounted with _ | b
  · cases h1 : cfg.hasHandler <;> cases h2 : cfg.handlerReturnsCleanup <;>
      simp [tracked, applyHandler, runReactiveFn, dispose_eq, hs, h1, h2, hmm]
  · cases b
    · cases h1 : cfg.hasHandler <;> cases h2 : cfg.handlerReturnsCleanup <;>
        simp [tracked, applyHandler, runReactiveFn, dispose_eq, hs, h1, h2,
              hmm]
    · exact absurd hmm hm

/-- A step that is neither a render pass nor the commit never creates a
computation: once the handle slot is empty it stays empty and the
creation counter is unchanged. -/
lemma step_no_recreate (cfg : Config) (s : State) (e : Event)
    (h : s.refs.computation = none) (he : e.isRenderOrCommit = false) :
    (step cfg s e).refs.computation = none ∧
    (step cfg s e).log.creations = s.log.creations := by
  cases e with
  | render d => simp [Event.isRenderOrCommit] at he
  | commit => simp [Event.isRenderOrCommit] at he
  | pulse d c f src =>
      have hfr := tracked_frame cfg d c f { s with source := src }
      exact ⟨hfr.2.2.2.2.2 h, hfr.2.2.1⟩
  | timerFire tid =>
      simp only [step]
      split
      · split <;> simp [dispose_eq, h]
      · simp [h]
  | unmount =>
      simp only [step]
      split <;> simp [dispose_eq, h]

/-- `step_no_recreate` extended along any trace free of render and
commit events. -/
lemma run_no_recreate (cfg : Config) (s : State) (es : List Event)
    (h : s.refs.computation = none)
    (he : es.all (fun e => !e.isRenderOrCommit) = true) :
    (run cfg s es).refs.computation = none ∧
    (run cfg s es).log.creations = s.log.creations := by
  induction es generalizing s with
  | nil => exact ⟨h, rfl⟩
  | cons e es ih =>
      simp only [List.all_cons, Bool.and_eq_true, Bool.not_eq_true'] at he
      have hstep := step_no_recreate cfg s e h he.1
      have hrec := ih (step cfg s e) hstep.1 (by simp [he.2])
      exact ⟨hrec.1, hrec.2.trans hstep.2⟩

/-- The `useMemo` gate re-runs on every render when `deps` is absent. -/
lemma depsChanged_undef (p : Option Deps) :
    depsChanged p Deps.undef = true := by
  rcases p with _ | d
  · rfl
  · cases d <;> rfl

/-- A render pass whose dependency identity changed runs the memo
callback on the state with the bookkeeping fields updated. -/
lemma render_changed (cfg : Config) (deps : Deps) (s : State)
    (h : depsChanged s.prevDeps deps = true) :
    render cfg deps s =
      memoCallback cfg deps
        { s with prevDeps := some deps, lastDeps := deps } := by
  unfold render
  simp [h]

/-- Every client-side run of the memo callback disposes the current
computation (stopping it when one is live) and creates a fresh one,
storing the freshly allocated handle. -/
lemma memoCallback_recreates (cfg : Config) (deps : Deps) (s : State)
    (hs : cfg.isServer = false) :
    (memoCallback cfg deps s).log.creations = s.log.creations + 1 ∧
    (memoCallback cfg deps s).log.stops
      = s.log.stops + (if s.refs.computation.isSome then 1 else 0) ∧
    (memoCallback cfg deps s).refs.computation = some s.nextCompId := by
  unfold memoCallback autorun
  rcases hmm : s.refs.isMounted with _ | (_ | _) <;>
    cases h1 : cfg.hasHandler <;> cases h2 : cfg.handlerReturnsCleanup <;>
      simp [tracked, applyHandler, runReactiveFn, dispose_eq, hs, h1, h2, hmm]

/-! ### The claims -/

/-- C1 — Synchronous first paint: on the very first render of an
instance, the first run of the tracked callback invokes `reactiveFn`
synchronously and caches its result before the render pass returns, the
hook returns exactly that cached value, and no re-render is requested
during the first run. -/
theorem useTracker_synchronous_first_paint (cfg : Config) (deps : Deps)
    (src : Nat) (hs : cfg.isServer = false) :
    (render cfg deps (initState src)).refs.trackerData
      = some (cfg.reactiveFn (some 0) src) ∧
    (render cfg deps (initState src)).log.runs = 1 ∧
    (render cfg deps (initState src)).log.forceUpdates = 0 := by
  simp [render_init cfg deps src hs]

/-- Witness for C1: with `reactiveFn = () => 42` and no deps, the very
first render returns `42` with no re-render requested. -/
theorem useTracker_synchronous_first_paint_witness :
    (render cfg42 Deps.undef (initState 0)).refs.trackerData = some 42 ∧
    (render cfg42 Deps.undef (initState 0)).log.runs = 1 ∧
    (render cfg42 Deps.undef (initState 0)).log.forceUpdates = 0 :=
  useTracker_synchronous_first_paint cfg42 Deps.undef 0 rfl

/-- C5 — Idempotent disposal: with both slots occupied, `dispose`
invokes the cleanup exactly once and stops the computation exactly once;
a second call in a row is a no-op; and `dispose` is a no-op whenever
both slots are already empty. -/
theorem dispose_idempotent (s : State)
    (hc : s.refs.computationCleanup = true)
    (hh : s.refs.computation.isSome = true) :
    dispose (dispose s) = dispose s ∧
    (dispose s).log.cleanups = s.log.cleanups + 1 ∧
    (dispose s).log.stops = s.log.stops + 1 ∧
    (∀ t : State, t.refs.computationCleanup = false →
      t.refs.computation = none → dispose t = t) := by
  refine ⟨?_, by simp [dispose_eq, hc], by simp [dispose_eq, hh], ?_⟩
  · (ext : 2) <;> simp [dispose_eq]
  · intro t h1 h2
    (ext : 2) <;> simp [dispose_eq, h1, h2]

/-- Witness for C5 at a state with both slots occupied. -/
theorem dispose_idempotent_witness :
    dispose (dispose sBusy) = dispose sBusy ∧
    (dispose sBusy).log.cleanups = sBusy.log.cleanups + 1 ∧
    (dispose sBusy).log.stops = sBusy.log.stops + 1 ∧
    (∀ t : State, t.refs.computationCleanup = false →
      t.refs.computation = none → dispose t = t) :=
  dispose_idempotent sBusy rfl rfl

/-- C6 — Non-array deps always-recreate: a subsequent run of the
tracked callback with deps that are not a proper array disposes the
current computation and requests a re-render without recomputing
`reactiveFn` in that run; and with deps omitted, every render pass
disposes the old computation and creates a fresh one. -/
theorem useTracker_nonarray_deps_always_recreate (cfg : Config) (d : Deps)
    (k : Nat) (s : State)
    (hd : d.isArray = false) (hs : cfg.isServer = false)
    (hc : s.refs.computation.isSome = true) :
    tracked cfg d (some k) false s = forceUpdate (dispose s) ∧
    (tracked cfg d (some k) false s).log.runs = s.log.runs ∧
    (tracked cfg d (some k) false s).log.stops = s.log.stops + 1 ∧
    (tracked cfg d (some k) false s).log.forceUpdates
      = s.log.forceUpdates + 1 ∧
    (render cfg Deps.undef s).log.creations = s.log.creations + 1 ∧
    (render cfg Deps.undef s).log.stops = s.log.stops + 1 ∧
    (render cfg Deps.undef s).refs.computation = some s.nextCompId := by
  have hsub := tracked_sub_notArray cfg d k s hd
  have hrw := render_changed cfg Deps.undef s (depsChanged_undef s.prevDeps)
  have hrec := memoCallback_recreates cfg Deps.undef
    { s with prevDeps := some Deps.undef, lastDeps := Deps.undef } hs
  refine ⟨hsub, ?_, ?_, ?_, ?_, ?_, ?_⟩
  · simp [hsub, forceUpdate, dispose_eq]
  · simp [hsub, forceUpdate, dispose_eq, hc]
  · simp [hsub, forceUpdate, dispose_eq]
  · rw [hrw]
    simpa using hrec.1
  · rw [hrw]
    simpa [hc] using hrec.2.1
  · rw [hrw]
    simpa using hrec.2.2

/-- Witness for C6 at a live post-first-render state. -/
theorem useTracker_nonarray_deps_always_recreate_witness :
    tracked cfg42 Deps.undef (some 0) false sBusy
      = forceUpdate (dispose sBusy) ∧
    (tracked cfg42 Deps.undef (some 0) false sBusy).log.runs
      = sBusy.log.runs ∧
    (tracked cfg42 Deps.undef (some 0) false sBusy).log.stops
      = sBusy.log.stops + 1 ∧
    (tracked cfg42 Deps.undef (some 0) false sBusy).log.forceUpdates
      = sBusy.log.forceUpdates + 1 ∧
    (render cfg42 Deps.undef sBusy).log.creations
      = sBusy.log.creations + 1 ∧
    (render cfg42 Deps.undef sBusy).log.stops = sBusy.log.stops + 1 ∧
    (render cfg42 Deps.undef sBusy).refs.computation
      = some sBusy.nextCompId :=
  useTracker_nonarray_deps_always_recreate cfg42 Deps.undef 0 sBusy rfl rfl
    rfl

/-- C2 — Deferred replay, not drop: an invalidation (subsequent run
with array deps) that fires while `mounted` is not yet `true` does not
recompute and only sets the deferred-render flag; at the first commit,
the effect recomputes the cached result from the current handle, clears
the flag, and issues exactly one re-render request whose cached result
reflects the post-invalidation source value — never zero, never two. -/
theorem useTracker_deferred_replay_not_drop (cfg : Config) (d d2 : Deps)
    (k : Nat) (s t : State)
    (hd : d.isArray = true) (hm : s.refs.isMounted ≠ some true)
    (hs : cfg.isServer = false) (ht : t.refs.doDeferredRender = true)
    (htc : t.refs.computation.isSome = true) :
    tracked cfg d (some k) false s
      = { s with refs.doDeferredRender := true } ∧
    (effectCallback cfg d2 t).log.forceUpdates = t.log.forceUpdates + 1 ∧
    (effectCallback cfg d2 t).log.runs = t.log.runs + 1 ∧
    (effectCallback cfg d2 t).refs.doDeferredRender = false ∧
    (effectCallback cfg d2 t).refs.trackerData
      = some (cfg.reactiveFn t.refs.computation t.source) := by
  refine ⟨tracked_sub_deferred cfg d k s hd hm, ?_⟩
  rcases hcid : t.refs.computation with _ | cid
  · simp [hcid] at htc
  · rcases hdi : t.refs.disposeId with _ | tid <;>
      simp [effectCallback, clearPending, runReactiveFn, forceUpdate, hs, ht,
            hcid, hdi]

/-- Witness for C2: a pulse between the first render and the commit of
a fresh instance, replayed by the commit with exactly one re-render. -/
theorem useTracker_deferred_replay_not_drop_witness :
    tracked cfgLive (Deps.arr [0]) (some 0) false
        (render cfgLive (Deps.arr [0]) (initState 5))
      = { render cfgLive (Deps.arr [0]) (initState 5) with
            refs.doDeferredRender := true } ∧
    (effectCallback cfgLive (Deps.arr [0])
        (tracked cfgLive (Deps.arr [0]) (some 0) false
          { render cfgLive (Deps.arr [0]) (initState 5) with
              source := 7 })).log.forceUpdates
      = (tracked cfgLive (Deps.arr [0]) (some 0) false
          { render cfgLive (Deps.arr [0]) (initState 5) with
              source := 7 }).log.forceUpdates + 1 ∧
    (effectCallback cfgLive (Deps.arr [0])
        (tracked cfgLive (Deps.arr [0]) (some 0) false
          { render cfgLive (Deps.arr [0]) (initState 5) with
              source := 7 })).log.runs
      = (tracked cfgLive (Deps.arr [0]) (some 0) false
          { render cfgLive (Deps.arr [0]) (initState 5) with
              source := 7 }).log.runs + 1 ∧
    (effectCallback cfgLive (Deps.arr [0])
        (tracked cfgLive (Deps.arr [0]) (some 0) false
          { render cfgLive (Deps.arr [0]) (initState 5) with
              source := 7 })).refs.doDeferredRender = false ∧
    (effectCallback cfgLive (Deps.arr [0])
        (tracked cfgLive (Deps.arr [0]) (some 0) false
          { render cfgLive (Deps.arr [0]) (initState 5) with
              source := 7 })).refs.trackerData
      = some (cfgLive.reactiveFn
          (tracked cfgLive (Deps.arr [0]) (some 0) false
            { render cfgLive (Deps.arr [0]) (initState 5) with
                source := 7 }).refs.computation
          (tracked cfgLive (Deps.arr [0]) (some 0) false
            { render cfgLive (Deps.arr [0]) (initState 5) with
                source := 7 }).source) := by
  have h1 := useTracker_deferred_replay_not_drop cfgLive (Deps.arr [0])
    (Deps.arr [0]) 0 (render cfgLive (Deps.arr [0]) (initState 5))
    (tracked cfgLive (Deps.arr [0]) (some 0) false
      { render cfgLive (Deps.arr [0]) (initState 5) with source := 7 })
    rfl (by decide) rfl (by decide) (by decide)
  exact h1

/-- C7 — Mount-reconciler recovery: at the post-commit effect, if no
computation handle exists and the dependency list is a proper array, a
new computation is created through the same creation step as the render
gate (`autorun`), a deferred render is marked pending and then replayed
with exactly one re-render request; with a non-array dependency list the
recovery creates no computation. -/
theorem useTracker_mount_reconciler_recovery (cfg : Config) (deps : Deps)
    (t : State)
    (hs : cfg.isServer = false) (hc : t.refs.computation = none)
    (hd : deps.isArray = true) :
    (effectCallback cfg deps t).log.creations = t.log.creations + 1 ∧
    (effectCallback cfg deps t).refs.computation = some t.nextCompId ∧
    (effectCallback cfg deps t).log.forceUpdates = t.log.forceUpdates + 1 ∧
    (effectCallback cfg deps t).refs.doDeferredRender = false ∧
    (∀ d2 : Deps, d2.isArray = false →
      (effectCallback cfg d2 t).log.creations = t.log.creations ∧
      (effectCallback cfg d2 t).refs.computation = none) := by
  refine ⟨?_, ?_, ?_, ?_, ?_⟩
  case _ | _ | _ | _ =>
    rcases hdi : t.refs.disposeId with _ | tid <;>
      cases h1 : cfg.hasHandler <;> cases h2 : cfg.handlerReturnsCleanup <;>
        simp [effectCallback, clearPending, autorun, tracked, applyHandler,
              runReactiveFn, forceUpdate, hs, hc, hd, hdi, h1, h2]
  case _ =>
    intro d2 hd2
    rcases hdi : t.refs.disposeId with _ | tid <;>
      simp [effectCallback, clearPending, runReactiveFn, forceUpdate, hs, hc,
            hd2, hdi]

/-- Witness for C7: the effect of a fresh instance whose computation was
already torn down (so the handle slot is empty). -/
theorem useTracker_mount_reconciler_recovery_witness :
    (effectCallback cfg42 (Deps.arr [0]) (initState 3)).log.creations
      = (initState 3).log.creations + 1 ∧
    (effectCallback cfg42 (Deps.arr [0]) (initState 3)).refs.computation
      = some (initState 3).nextCompId ∧
    (effectCallback cfg42 (Deps.arr [0]) (initState 3)).log.forceUpdates
      = (initState 3).log.forceUpdates + 1 ∧
    (effectCallback cfg42 (Deps.arr [0]) (initState 3)).refs.doDeferredRender
      = false ∧
    (∀ d2 : Deps, d2.isArray = false →
      (effectCallback cfg42 d2 (initState 3)).log.creations
        = (initState 3).log.creations ∧
      (effectCallback cfg42 d2 (initState 3)).refs.computation = none) :=
  useTracker_mount_reconciler_recovery cfg42 (Deps.arr [0]) (initState 3)
    rfl rfl rfl

/-- C4 — Leak-guard bound: whenever the memo gate creates a computation
on the client before the instance has completed its first mount, it
schedules a timer with the fixed delay 50 and stores its handle; and on
a fresh instance that never commits, firing that timer stops the
computation, which is never recreated by any later trace of
non-render, non-commit events. -/
theorem useTracker_leak_guard_bound (cfg : Config) (deps : Deps) (t : State)
    (src : Nat) (es : List Event)
    (hs : cfg.isServer = false) (hm : t.refs.isMounted ≠ some true)
    (he : es.all (fun e => !e.isRenderOrCommit) = true) :
    (memoCallback cfg deps t).timers
      = t.timers ++ [⟨t.nextTimerId, 50⟩] ∧
    (memoCallback cfg deps t).refs.disposeId = some t.nextTimerId ∧
    (render cfg deps (initState src)).timers = [⟨0, 50⟩] ∧
    (step cfg (render cfg deps (initState src))
        (Event.timerFire 0)).refs.computation = none ∧
    (step cfg (render cfg deps (initState src))
        (Event.timerFire 0)).log.stops = 1 ∧
    (run cfg (step cfg (render cfg deps (initState src))
        (Event.timerFire 0)) es).refs.computation = none ∧
    (run cfg (step cfg (render cfg deps (initState src))
        (Event.timerFire 0)) es).log.creations = 1 := by
  obtain ⟨m1, m2, -⟩ := memoCallback_schedules cfg deps t hs hm
  have hri := render_init cfg deps src hs
  have h4 : (step cfg (render cfg deps (initState src))
      (Event.timerFire 0)).refs.computation = none := by
    rw [hri]
    simp [step, dispose_eq]
  have h5 : (step cfg (render cfg deps (initState src))
      (Event.timerFire 0)).log.stops = 1 := by
    rw [hri]
    simp [step, dispose_eq]
  have h7 : (step cfg (render cfg deps (initState src))
      (Event.timerFire 0)).log.creations = 1 := by
    rw [hri]
    simp [step, dispose_eq]
  obtain ⟨r1, r2⟩ := run_no_recreate cfg _ es h4 he
  exact ⟨m1, m2, by rw [hri]; rfl, h4, h5, r1, r2.trans h7⟩

/-- Witness for C4: a fresh instance, a pulse and an unmount after the
guard expiry; the computation stays gone. -/
theorem useTracker_leak_guard_bound_witness :
    (memoCallback cfg42 (Deps.arr [0]) (initState 3)).timers
      = (initState 3).timers ++ [⟨(initState 3).nextTimerId, 50⟩] ∧
    (memoCallback cfg42 (Deps.arr [0]) (initState 3)).refs.disposeId
      = some (initState 3).nextTimerId ∧
    (render cfg42 (Deps.arr [0]) (initState 3)).timers = [⟨0, 50⟩] ∧
    (step cfg42 (render cfg42 (Deps.arr [0]) (initState 3))
        (Event.timerFire 0)).refs.computation = none ∧
    (step cfg42 (render cfg42 (Deps.arr [0]) (initState 3))
        (Event.timerFire 0)).log.stops = 1 ∧
    (run cfg42 (step cfg42 (render cfg42 (Deps.arr [0]) (initState 3))
        (Event.timerFire 0))
        [Event.pulse (Deps.arr [0]) (some 0) false 9,
         Event.unmount]).refs.computation = none ∧
    (run cfg42 (step cfg42 (render cfg42 (Deps.arr [0]) (initState 3))
        (Event.timerFire 0))
        [Event.pulse (Deps.arr [0]) (some 0) false 9,
         Event.unmount]).log.creations = 1 :=
  useTracker_leak_guard_bound cfg42 (Deps.arr [0]) (initState 3) 3
    [Event.pulse (Deps.arr [0]) (some 0) false 9, Event.unmount]
    rfl (by decide) (by decide)

/-- C10 — Pre-commit recreation returns a stale value: when the
dependency identity changes on a re-render before the first commit (so
`isMounted` is explicitly `false`), the fresh computation's first run
invokes the computation handler but returns before recomputing, so the
cached result is unchanged and that render pass returns the previous
cached value while still having created the new computation. -/
theorem useTracker_precommit_recreation_stale (cfg : Config) (d1 d2 : Deps)
    (src : Nat)
    (hs : cfg.isServer = false)
    (hneq : depsChanged (some d1) d2 = true) :
    (render cfg d2 (render cfg d1 (initState src))).refs.trackerData
      = (render cfg d1 (initState src)).refs.trackerData ∧
    (render cfg d2 (render cfg d1 (initState src))).log.runs
      = (render cfg d1 (initState src)).log.runs ∧
    (render cfg d2 (render cfg d1 (initState src))).log.creations
      = (render cfg d1 (initState src)).log.creations + 1 ∧
    (cfg.hasHandler = true →
      (render cfg d2 (render cfg d1 (initState src))).log.handlerCalls
        = (render cfg d1 (initState src)).log.handlerCalls + 1) ∧
    (render cfg d1 (initState src)).refs.isMounted = some false := by
  have hri := render_init cfg d1 src hs
  rw [hri]
  cases h1 : cfg.hasHandler <;> cases h2 : cfg.handlerReturnsCleanup <;>
    simp [render, memoCallback, autorun, tracked, applyHandler, runReactiveFn,
          dispose_eq, hs, h1, h2, hneq]

/-- Witness for C10: deps `[0]` then `[1]` before commit. -/
theorem useTracker_precommit_recreation_stale_witness :
    (render cfgLive (Deps.arr [1])
        (render cfgLive (Deps.arr [0]) (initState 5))).refs.trackerData
      = (render cfgLive (Deps.arr [0]) (initState 5)).refs.trackerData ∧
    (render cfgLive (Deps.arr [1])
        (render cfgLive (Deps.arr [0]) (initState 5))).log.runs
      = (render cfgLive (Deps.arr [0]) (initState 5)).log.runs ∧
    (render cfgLive (Deps.arr [1])
        (render cfgLive (Deps.arr [0]) (initState 5))).log.creations
      = (render cfgLive (Deps.arr [0]) (initState 5)).log.creations + 1 ∧
    (cfgLive.hasHandler = true →
      (render cfgLive (Deps.arr [1])
          (render cfgLive (Deps.arr [0]) (initState 5))).log.handlerCalls
        = (render cfgLive (Deps.arr [0]) (initState 5)).log.handlerCalls
            + 1) ∧
    (render cfgLive (Deps.arr [0]) (initState 5)).refs.isMounted
      = some false :=
  useTracker_precommit_recreation_stale cfgLive (Deps.arr [0])
    (Deps.arr [1]) 5 rfl (by decide)

/-- C3 — the code diverges from the claimed "no update after unmount":
on the trace render / commit / unmount no re-render request has been
issued, but `refs.isMounted` remains `true` after the unmount disposer
ran, so a further invalidation pulse with array deps through a handle
the engine had not fully stopped recomputes and issues a re-render
request (`forceUpdate`) after unmount. -/
theorem useTracker_update_after_unmount_bug :
    (run cfgLive (initState 0)
        [Event.render (Deps.arr [0]), Event.commit,
         Event.unmount]).log.forceUpdates = 0 ∧
    (run cfgLive (initState 0)
        [Event.render (Deps.arr [0]), Event.commit,
         Event.unmount]).refs.isMounted = some true ∧
    (run cfgLive (initState 0)
        [Event.render (Deps.arr [0]), Event.commit, Event.unmount,
         Event.pulse (Deps.arr [0]) (some 0) false 7]).log.forceUpdates
      = 1 := by
  refine ⟨rfl, rfl, rfl⟩

/-- C8 counterexample — "at most one live leak-guard timer per
instance" is false: two render passes with different dependency
identities before the first commit leave two pending leak-guard
timers. -/
theorem leak_guard_two_live_timers_counterexample :
    (run cfgLive (initState 0)
        [Event.render (Deps.arr [0]),
         Event.render (Deps.arr [1])]).timers.length = 2 := by
  rfl

/-- C8 amended — the leak-guard timer handle slot is cleared only by
the commit, never by disposal (`dispose` touches no timer state); each
pre-commit re-run of the memo gate schedules a fresh timer while the
previous one stays pending, so several live timers can coexist, and the
commit cancels only the most recently stored one, leaving the earlier
timer still pending after commit. -/
theorem leak_guard_timer_amended (s : State) :
    (dispose s).timers = s.timers ∧
    (dispose s).refs.disposeId = s.refs.disposeId ∧
    (run cfgLive (initState 0)
        [Event.render (Deps.arr [0]), Event.render (Deps.arr [1])]).timers
      = [⟨0, 50⟩, ⟨1, 50⟩] ∧
    (run cfgLive (initState 0)
        [Event.render (Deps.arr [0]),
         Event.render (Deps.arr [1])]).refs.disposeId = some 1 ∧
    (run cfgLive (initState 0)
        [Event.render (Deps.arr [0]), Event.render (Deps.arr [1]),
         Event.commit]).timers = [⟨0, 50⟩] ∧
    (run cfgLive (initState 0)
        [Event.render (Deps.arr [0]), Event.render (Deps.arr [1]),
         Event.commit]).refs.disposeId = none := by
  exact ⟨by simp [dispose_eq], by simp [dispose_eq], rfl, rfl, rfl, rfl⟩

/-- C9 — Error propagation without isolation: an exception raised
inside `reactiveFn` or `computationHandler` during the first run, or
inside the stored cleanup callback during `dispose`, is not caught
anywhere in the core and propagates to the caller; in particular, when
the cleanup throws, `disposeE` returns the error before the
computation's `stop` call is reached, so the stop counter is never
incremented and the handle slot is left occupied. -/
theorem useTracker_error_propagation (fn fn2 : Option Nat → Except String Nat)
    (handler : Option Nat → Except String (Option (Unit → Except String Unit)))
    (c : Option Nat) (r : ERefs) (e1 e2 e3 : String)
    (f : Unit → Except String Unit)
    (hfn : fn c = Except.error e1)
    (hm : r.isMounted = none)
    (hh : handler c = Except.error e2)
    (hcl : r.computationCleanup = some f)
    (hf : f () = Except.error e3) :
    trackedFirstRunE fn none c r = Except.error e1 ∧
    trackedFirstRunE fn2 (some handler) c r = Except.error e2 ∧
    disposeE r = Except.error e3 := by
  refine ⟨?_, ?_, ?_⟩
  · simp [trackedFirstRunE, runReactiveFnE, hm, hfn]
  · simp only [trackedFirstRunE, hh]
    rfl
  · simp only [disposeE, hcl, hf]
    rfl

/-- Witness for C9 at throwing callbacks. -/
theorem useTracker_error_propagation_witness :
    trackedFirstRunE fnBoom none none rBusy
      = Except.error "reactive failed" ∧
    trackedFirstRunE fnBoom (some handlerBoom) none rBusy
      = Except.error "handler failed" ∧
    disposeE rBusy = Except.error "cleanup failed" :=
  useTracker_error_propagation fnBoom fnBoom handlerBoom none rBusy
    "reactive failed" "handler failed" "cleanup failed" cleanupBoom
    rfl rfl rfl rfl rfl

end UseTracker
